import Mathlib

/-!
Verification development for the GPS geotagging engine of the LazyScripts
repository (src/gps_checker.py, src/check_gps.py).

The Python code is shallowly embedded: Python numbers are modelled by exact
rationals (ℚ), Python exceptions by explicit `Except`/outcome types, and the
dynamically typed EXIF tag values by the inductive `PyVal`.  Every definition
follows the corresponding source function; file- and image-I/O effects are
abstracted into oracle inputs where noted.
-/

namespace GpsTool

/-- Exception classes (with the distinguishing message where the source raises
the same class at several sites) that can arise inside `_convert_to_degrees`
and the functions built on it. -/
inductive PyErr where
  /-- `TypeError`: the value is not a 3-element tuple/list (raised at the top
  of `_convert_to_degrees`). -/
  | typeErrorNot3
  /-- `TypeError` with the "mixed format" message: the three elements do not
  share one shape. -/
  | typeErrorMixed
  /-- `TypeError` with the "unknown format" message: the first element matches
  none of the three recognised shapes. -/
  | typeErrorUnknown
  /-- `TypeError` raised by `float()` applied to a tuple or other non-numeric,
  non-string object. -/
  | typeErrorBadFloat
  /-- `ValueError` raised by `float()` applied to a string that does not parse
  as a number.  NOT in the handled exception tuple of the source. -/
  | valueErrorBadStr
  /-- `ZeroDivisionError` from dividing by a zero denominator. -/
  | zeroDivisionError
  /-- `AttributeError` from accessing `.numerator` / `.denominator` on a value
  that has no such attributes. -/
  | attributeError
deriving DecidableEq, Repr

/-- The source's handler is `except (TypeError, ZeroDivisionError, IndexError,
AttributeError)`; a `ValueError` is not caught. -/
def caughtByConvertHandler : PyErr → Bool
  | .valueErrorBadStr => false
  | _ => true

/-- Model of the Python values that can appear as EXIF GPS tag values.
CPython floats are modelled by exact rationals.  A string carries, besides its
text, the result `numVal` of applying `float()` to it (`none` models a
`ValueError`).  A bytes object is modelled by the UTF-8 text it decodes to
(the refs written by this tool are ASCII hemisphere letters).  `pyRat` models
objects such as `fractions.Fraction` that expose `numerator` / `denominator`
attributes. -/
inductive PyVal where
  | pyInt (n : ℤ)
  | pyFloat (q : ℚ)
  | pyStr (s : String) (numVal : Option ℚ)
  | pyBytes (s : String)
  | pyTuple (xs : List PyVal)
  | pyRat (num den : ℤ)
  | pyOther
deriving Repr

/-- Python `float(x)`.  `float` of an int/float is exact here; `float` of a
string succeeds exactly when the string parses (`ValueError` otherwise);
`float` of a tuple or unknown object is a `TypeError`.  `pyBytes` values in
this model hold hemisphere text, never numerals, so `float()` on them is a
`ValueError`; `float` of a rational object divides out its attributes. -/
def floatOf : PyVal → Except PyErr ℚ
  | .pyInt n => .ok n
  | .pyFloat q => .ok q
  | .pyStr _ (some q) => .ok q
  | .pyStr _ none => .error .valueErrorBadStr
  | .pyBytes _ => .error .valueErrorBadStr
  | .pyTuple _ => .error .typeErrorBadFloat
  | .pyRat n d => if d = 0 then .error .zeroDivisionError else .ok ((n : ℚ) / d)
  | .pyOther => .error .typeErrorBadFloat

/-- Python division `x / y` on floats: `ZeroDivisionError` on a zero divisor. -/
def pyDiv (x y : ℚ) : Except PyErr ℚ :=
  if y = 0 then .error .zeroDivisionError else .ok (x / y)

/-- `float(pair[0]) / float(pair[1])` as in the rational-pair branch. -/
def pairQuot (a b : PyVal) : Except PyErr ℚ := do
  let x ← floatOf a
  let y ← floatOf b
  pyDiv x y

/-- `.numerator` / `.denominator` attribute access.  Python ints expose both
attributes (numerator = the int, denominator = 1); objects without them raise
`AttributeError`. -/
def ratAttrs : PyVal → Except PyErr (ℤ × ℤ)
  | .pyRat n d => .ok (n, d)
  | .pyInt n => .ok (n, 1)
  | _ => .error .attributeError

/-- `float(v.numerator) / float(v.denominator)` as in the attribute branch. -/
def ratQuot (v : PyVal) : Except PyErr ℚ := do
  let nd ← ratAttrs v
  pyDiv (nd.1 : ℚ) (nd.2 : ℚ)

/-- `isinstance(v, (tuple, list)) and len(v) == 2`. -/
def isPair2 : PyVal → Bool
  | .pyTuple xs => xs.length == 2
  | _ => false

/-- `isinstance(v, (int, float))`. -/
def isNumber : PyVal → Bool
  | .pyInt _ => true
  | .pyFloat _ => true
  | _ => false

/-- `hasattr(v, 'numerator') and hasattr(v, 'denominator')`. -/
def hasRatAttrs : PyVal → Bool
  | .pyRat _ _ => true
  | .pyInt _ => true
  | _ => false

/-- The two components of a length-2 tuple/list, when the value is one. -/
def pairComponents : PyVal → Option (PyVal × PyVal)
  | .pyTuple [a, b] => some (a, b)
  | _ => none

/-- The `try` body of `_convert_to_degrees` (src/gps_checker.py lines 56-84):
shape dispatch on the first element, consistency check on the other two, then
`d + m/60 + s/3600`. -/
def convertBody : PyVal → Except PyErr ℚ
  | .pyTuple [v0, v1, v2] =>
    if isPair2 v0 then
      match pairComponents v0, pairComponents v1, pairComponents v2 with
      | some (a, b), some (c, d), some (e, f) => do
        let dv ← pairQuot a b
        let mv ← pairQuot c d
        let sv ← pairQuot e f
        .ok (dv + mv / 60 + sv / 3600)
      | _, _, _ => .error .typeErrorMixed
    else if isNumber v0 then
      if isNumber v1 && isNumber v2 then do
        let dv ← floatOf v0
        let mv ← floatOf v1
        let sv ← floatOf v2
        .ok (dv + mv / 60 + sv / 3600)
      else .error .typeErrorMixed
    else if hasRatAttrs v0 then do
      let dv ← ratQuot v0
      let mv ← ratQuot v1
      let sv ← ratQuot v2
      .ok (dv + mv / 60 + sv / 3600)
    else .error .typeErrorUnknown
  | _ => .error .typeErrorNot3

/-- Observable outcome of calling `_convert_to_degrees`: a returned value, a
caught exception (the function prints a warning and returns `None`), or an
exception escaping the function. -/
inductive ConvOutcome where
  | value (q : ℚ)
  | recovered (e : PyErr)
  | raised (e : PyErr)
deriving DecidableEq, Repr

/-- `_convert_to_degrees` (src/gps_checker.py lines 54-87): the `try` body
wrapped in the `except (TypeError, ZeroDivisionError, IndexError,
AttributeError)` handler. -/
def convertToDegrees (v : PyVal) : ConvOutcome :=
  match convertBody v with
  | .ok q => .value q
  | .error e => if caughtByConvertHandler e then .recovered e else .raised e

/-! ### EXIF data model and `get_gps_info` -/

/-- Keys of the name-keyed GPS dictionary built by `get_gps_info`:
`GPSTAGS.get(gps_tag_id, gps_tag_id)`.  The named constructors are the tags
the source later looks up by name; every other id keeps its identity through
`otherId` (the real table gives such ids names too, but those names are never
consulted, so keeping them distinct by id is observationally equivalent). -/
inductive GpsKey where
  | versionID
  | latRef
  | lat
  | lonRef
  | lon
  | altRef
  | alt
  | timeStamp
  | dateStamp
  | otherId (n : ℕ)
deriving DecidableEq, Repr

/-- The `GPSTAGS` name table restricted to the tags the source consults:
0 → GPSVersionID, 1 → GPSLatitudeRef, 2 → GPSLatitude, 3 → GPSLongitudeRef,
4 → GPSLongitude, 5 → GPSAltitudeRef, 6 → GPSAltitude, 7 → GPSTimeStamp,
29 → GPSDateStamp. -/
def gpsTagKey : ℕ → GpsKey
  | 0 => .versionID
  | 1 => .latRef
  | 2 => .lat
  | 3 => .lonRef
  | 4 => .lon
  | 5 => .altRef
  | 6 => .alt
  | 7 => .timeStamp
  | 29 => .dateStamp
  | n => .otherId n

/-- Python-dict assignment `d[k] = v` on an association list: replace the
existing binding in place, else append. -/
def dictInsert {κ β : Type} [DecidableEq κ] (d : List (κ × β)) (k : κ) (v : β) :
    List (κ × β) :=
  match d with
  | [] => [(k, v)]
  | (k0, v0) :: rest => if k0 = k then (k, v) :: rest else (k0, v0) :: dictInsert rest k v

/-- Python `d.get(k)` on an association list. -/
def dictGet {κ β : Type} [DecidableEq κ] (d : List (κ × β)) (k : κ) : Option β :=
  match d with
  | [] => none
  | (k0, v0) :: rest => if k0 = k then some v0 else dictGet rest k

/-- The loop of `get_gps_info` that renames the raw id-keyed GPS IFD into the
name-keyed `gps_info_dict`. -/
def mapGpsIfd (g : List (ℕ × PyVal)) : List (GpsKey × PyVal) :=
  g.foldl (fun acc kv => dictInsert acc (gpsTagKey kv.1) kv.2) []

/-- The `piexif.load()` result: one id-keyed dictionary per IFD section plus
the raw thumbnail bytes. -/
structure ExifDict where
  zeroth : List (ℕ × PyVal)
  exifIfd : List (ℕ × PyVal)
  gps : List (ℕ × PyVal)
  interop : List (ℕ × PyVal)
  firstIfd : List (ℕ × PyVal)
  thumbnail : Option (List ℕ)
deriving Repr

/-- A value of the flat `_getexif()` dictionary: a scalar tag value, or (for
the GPSInfo tag) a nested id-keyed dictionary. -/
inductive FlatVal where
  | scalar (v : PyVal)
  | dict (d : List (ℕ × PyVal))
deriving Repr

/-- The two EXIF dialects `get_exif_data` can return: the structured
`piexif.load()` tree, or Pillow's flat `_getexif()` tag-id map. -/
inductive ExifData where
  | piexifDict (d : ExifDict)
  | pillowFlat (entries : List (ℕ × FlatVal))
deriving Repr

/-- Python truthiness of the `exif_data` argument (`if not exif_data`): a
`piexif.load()` result always carries its six section keys, hence is truthy;
a flat dict is truthy iff non-empty. -/
def exifTruthy : ExifData → Bool
  | .piexifDict _ => true
  | .pillowFlat entries => !entries.isEmpty

/-- The flat-dialect scan: the first entry whose tag id names `GPSInfo`
(id 34853) and whose value is a dict. -/
def findGpsInfoEntry : List (ℕ × FlatVal) → Option (List (ℕ × PyVal))
  | [] => none
  | (tagId, v) :: rest =>
    match v with
    | .dict d => if tagId = 34853 then some d else findGpsInfoEntry rest
    | .scalar _ => findGpsInfoEntry rest

/-- Dialect detection of `get_gps_info`: the structured shape (a 'GPS' section
key) is checked first, the flat shape is the fallback. -/
def gpsIfdOf : ExifData → Option (List (ℕ × PyVal))
  | .piexifDict d => some d.gps
  | .pillowFlat entries => findGpsInfoEntry entries

/-- `get_gps_info` of src/gps_checker.py (lines 159-186): extract the GPS IFD,
rename its tags, and return the dictionary when it is non-empty.  There is no
completeness requirement on the coordinate tags here. -/
def get_gps_info (exifData : Option ExifData) : Option (List (GpsKey × PyVal)) :=
  match exifData with
  | none => none
  | some e =>
    if !exifTruthy e then none
    else
      match gpsIfdOf e with
      | none => none
      | some g =>
        if g.isEmpty then none
        else
          let d := mapGpsIfd g
          if d.isEmpty then none else some d

/-- The four tags `check_gps.py` requires, in source order. -/
def requiredTags : List GpsKey := [.lat, .latRef, .lon, .lonRef]

/-- `get_gps_info` of src/check_gps.py (lines 42-79): same extraction, but the
dictionary is returned only when all four latitude/longitude value/reference
tags are present. -/
def CheckGps.get_gps_info (exifData : Option ExifData) :
    Option (List (GpsKey × PyVal)) :=
  match exifData with
  | none => none
  | some e =>
    if !exifTruthy e then none
    else
      match gpsIfdOf e with
      | none => none
      | some g =>
        if g.isEmpty then none
        else
          let d := mapGpsIfd g
          if requiredTags.all (fun k => (dictGet d k).isSome) then
            if d.isEmpty then none else some d
          else none

/-! ### `convert_gps_to_decimal` -/

/-- Python truthiness of a tag value. -/
def pyTruthy : PyVal → Bool
  | .pyInt n => n ≠ 0
  | .pyFloat q => q ≠ 0
  | .pyStr s _ => s ≠ ""
  | .pyBytes s => s ≠ ""
  | .pyTuple xs => !xs.isEmpty
  | .pyRat n _ => n ≠ 0
  | .pyOther => true

/-- The hemisphere reference after the `bytes → str` decode step: a str is
used as is, a bytes value is decoded (modelled by the text it carries); any
other value never compares equal to a reference letter. -/
def refStr : PyVal → Option String
  | .pyStr s _ => some s
  | .pyBytes s => some s
  | _ => none

/-- Lift a `_convert_to_degrees` outcome into the caller: a caught error means
the coordinate is `None`; an uncaught error propagates. -/
def outcomeToExcept : ConvOutcome → Except PyErr (Option ℚ)
  | .value q => .ok (some q)
  | .recovered _ => .ok none
  | .raised e => .error e

/-- `convert_gps_to_decimal` (src/gps_checker.py lines 90-109): all four tags
must be present and truthy, both DMS values are converted (in order), then the
hemisphere sign is applied: latitude is positive iff the reference equals
`"N"`, longitude positive iff it equals `"E"`. -/
def convert_gps_to_decimal (gpsInfo : List (GpsKey × PyVal)) :
    Except PyErr (Option ℚ × Option ℚ) :=
  match dictGet gpsInfo .lat, dictGet gpsInfo .latRef,
        dictGet gpsInfo .lon, dictGet gpsInfo .lonRef with
  | some vlat, some vlatRef, some vlon, some vlonRef =>
    if pyTruthy vlat && pyTruthy vlatRef && pyTruthy vlon && pyTruthy vlonRef then do
      let latDec ← outcomeToExcept (convertToDegrees vlat)
      let lonDec ← outcomeToExcept (convertToDegrees vlon)
      let lat := latDec.map (fun q => if refStr vlatRef = some "N" then q else -q)
      let lon := lonDec.map (fun q => if refStr vlonRef = some "E" then q else -q)
      .ok (lat, lon)
    else .ok (none, none)
  | _, _, _, _ => .ok (none, none)

/-! ### `_deg_to_dms_rational` and `add_gps_to_image` -/

/-- `_deg_to_dms_rational` (src/gps_checker.py lines 112-119).  `int()`
truncates toward zero; every truncated quantity here is non-negative, so it is
the floor. -/
def deg_to_dms_rational (degFloat : ℚ) : (ℤ × ℤ) × (ℤ × ℤ) × (ℤ × ℤ) :=
  let a := |degFloat|
  let deg : ℤ := ⌊a⌋
  let minFloat := (a - deg) * 60
  let minVal : ℤ := ⌊minFloat⌋
  let secFloat := (minFloat - minVal) * 60
  ((deg, 1), (minVal, 1), (⌊secFloat * 10000⌋, 10000))

/-- A rational DMS triple as the tuple-of-pairs tag value it is stored as. -/
def dmsToPyVal (t : (ℤ × ℤ) × (ℤ × ℤ) × (ℤ × ℤ)) : PyVal :=
  .pyTuple [.pyTuple [.pyInt t.1.1, .pyInt t.1.2],
            .pyTuple [.pyInt t.2.1.1, .pyInt t.2.1.2],
            .pyTuple [.pyInt t.2.2.1, .pyInt t.2.2.2]]

/-- The clock and date fields of a `datetime` object, as used by the GPS
timestamp tags (the linear order on datetimes is modelled separately by an
epoch rational where comparisons are needed). -/
structure PyDatetime where
  hour : ℕ
  minute : ℕ
  second : ℕ
  dateStr : String
deriving DecidableEq, Repr

/-- The `gps_ifd` dictionary built by `add_gps_to_image` (src/gps_checker.py
lines 223-237), keyed by the `piexif.GPSIFD` tag ids: version 0, latitude ref
1, latitude 2, longitude ref 3, longitude 4, altitude ref 5, altitude 6,
timestamp 7, datestamp 29. -/
def buildGpsIfd (lat lon alt : ℚ) (timestampDt : Option PyDatetime) :
    List (ℕ × PyVal) :=
  let latRef := if lat ≥ 0 then "N" else "S"
  let lonRef := if lon ≥ 0 then "E" else "W"
  let base : List (ℕ × PyVal) :=
    [(0, .pyTuple [.pyInt 2, .pyInt 0, .pyInt 0, .pyInt 0]),
     (1, .pyStr latRef none),
     (2, dmsToPyVal (deg_to_dms_rational lat)),
     (3, .pyStr lonRef none),
     (4, dmsToPyVal (deg_to_dms_rational lon)),
     (5, .pyInt 0),
     (6, .pyTuple [.pyInt ⌊|alt| * 100⌋, .pyInt 100])]
  match timestampDt with
  | some ts =>
    base ++ [(7, .pyTuple [.pyTuple [.pyInt ts.hour, .pyInt 1],
                           .pyTuple [.pyInt ts.minute, .pyInt 1],
                           .pyTuple [.pyInt ts.second, .pyInt 1]]),
             (29, .pyStr ts.dateStr none)]
  | none => base

/-- The metadata transformation of `add_gps_to_image` (src/gps_checker.py
lines 216-251): `exif_dict['GPS'] = gps_ifd` — the GPS section of the loaded
blob is replaced wholesale and every other section is kept.  Opening, dumping
and saving the image file are the I/O around this transformation. -/
def add_gps_to_image (exif : ExifDict) (lat lon alt : ℚ)
    (timestampDt : Option PyDatetime) : ExifDict :=
  { exif with gps := buildGpsIfd lat lon alt timestampDt }

/-! ### Track log: CSV rows, loading, sorting -/

/-- One GPS log entry (`{'time': ..., 'lat': ..., 'lon': ..., 'alt': ...}`).
Datetimes are modelled by their local-epoch value in seconds as a rational. -/
structure TrackPoint where
  time : ℚ
  lat : ℚ
  lon : ℚ
  alt : ℚ
deriving DecidableEq, Repr

/-- The sort key relation of `gps_data.sort(key=lambda x: x['time'])`. -/
def timeLE (p q : TrackPoint) : Prop := p.time ≤ q.time

instance : DecidableRel timeLE := fun p q => inferInstanceAs (Decidable (p.time ≤ q.time))

instance : IsTotal TrackPoint timeLE := ⟨fun p q => le_total p.time q.time⟩

instance : IsTrans TrackPoint timeLE := ⟨fun _ _ _ h h2 => le_trans h h2⟩

/-- A CSV cell, modelled by how the source's parsers treat its text:
`num q digitLike` is a numeric string with value `q` whose
`replace('.','',1).isdigit()` test yields `digitLike` (false e.g. for signed
numerals); `datetimeStr t` is a `YYYY-MM-DD HH:MM:SS` string denoting local
time `t`; `blank` is the empty string; `junk` is any other text. -/
inductive Cell where
  | num (q : ℚ) (digitLike : Bool)
  | datetimeStr (t : ℚ)
  | blank
  | junk
deriving DecidableEq, Repr

/-- The timestamp-cell parser of `load_gps_csv` (lines 315-321): digit-like
numerals become `datetime.fromtimestamp(float(_))`, otherwise
`datetime.strptime(_, '%Y-%m-%d %H:%M:%S')`; both failures raise and skip the
row. -/
def parseTs : Cell → Option ℚ
  | .num q true => some q
  | .num _ false => none
  | .datetimeStr t => some t
  | .blank => none
  | .junk => none

/-- `float(cell)` for the latitude/longitude/altitude cells; `none` models the
raised `ValueError`. -/
def cellFloat : Cell → Option ℚ
  | .num q _ => some q
  | .datetimeStr _ => none
  | .blank => none
  | .junk => none

/-- Python truthiness of a cell string (used by the altitude guard). -/
def cellTruthy : Cell → Bool
  | .blank => false
  | _ => true

/-- The per-row body of `load_gps_csv` (lines 310-336): skip rows that are
empty or too short for the resolved column indices, then parse timestamp,
latitude, longitude and (guarded) altitude; any parse failure skips the row. -/
def parseRow (tsIdx latIdx lonIdx : ℕ) (altIdx : Option ℕ) (row : List Cell) :
    Option TrackPoint :=
  if row.isEmpty || row.length ≤ max tsIdx (max latIdx lonIdx) then none
  else do
    let ts ← parseTs (row.getD tsIdx .blank)
    let lat ← cellFloat (row.getD latIdx .blank)
    let lon ← cellFloat (row.getD lonIdx .blank)
    let alt ←
      match altIdx with
      | some ai =>
        if ai < row.length && cellTruthy (row.getD ai .blank) then
          cellFloat (row.getD ai .blank)
        else some 0
      | none => some 0
    some ⟨ts, lat, lon, alt⟩

/-- The data pipeline of `load_gps_csv` (src/gps_checker.py lines 259-347)
after column resolution: parse each row (skipping bad ones) and sort the
surviving points ascending by time.  Python's `list.sort` is a stable
ascending sort; any stable sort produces the same list, modelled here by
Mathlib's stable insertion sort. -/
def load_gps_csv (tsIdx latIdx lonIdx : ℕ) (altIdx : Option ℕ)
    (rows : List (List Cell)) : List TrackPoint :=
  List.insertionSort timeLE (rows.filterMap (parseRow tsIdx latIdx lonIdx altIdx))

/-! ### `find_closest_gps` -/

/-- The `while lo < hi` loop of CPython's `bisect.bisect_left`, with an
explicit iteration budget: each pass shrinks `hi - lo` by at least one, so any
`fuel ≥ hi - lo` makes the zero-fuel base case unreachable. -/
def bisectLoop (a : List ℚ) (x : ℚ) : ℕ → ℕ → ℕ → ℕ
  | 0, lo, _ => lo
  | fuel + 1, lo, hi =>
    if lo < hi then
      let mid := (lo + hi) / 2
      if a.getD mid 0 < x then bisectLoop a x fuel (mid + 1) hi
      else bisectLoop a x fuel lo mid
    else lo

/-- `bisect.bisect_left(a, x)`: the loop starting from `lo = 0`, `hi = len(a)`
with the (sufficient) budget `len(a)`. -/
def bisect_left (a : List ℚ) (x : ℚ) : ℕ := bisectLoop a x a.length 0 a.length

/-- Placeholder entry for the (never taken) out-of-range list accesses. -/
def defaultTrackPoint : TrackPoint := ⟨0, 0, 0, 0⟩

/-- The candidate list of `find_closest_gps`: the immediate predecessor
(`gps_log[idx-1]` when `idx > 0`) followed by the immediate successor
(`gps_log[idx]` when `idx < len`). -/
def candidatesOf (gpsLog : List TrackPoint) (idx : ℕ) : List TrackPoint :=
  (if 0 < idx then [gpsLog.getD (idx - 1) defaultTrackPoint] else []) ++
    (if idx < gpsLog.length then [gpsLog.getD idx defaultTrackPoint] else [])

/-- The candidate loop step: replace the running minimum only on a strictly
smaller absolute difference. -/
def closestStep (t : ℚ) (st : ℚ × Option TrackPoint) (p : TrackPoint) :
    ℚ × Option TrackPoint :=
  if |t - p.time| < st.1 then (|t - p.time|, some p) else st

/-- `find_closest_gps` (src/gps_checker.py lines 350-377): `None` on a missing
timestamp or empty/absent log; otherwise binary-search the parallel timestamp
array, scan the two neighbour candidates with `closestStep` starting from
`tolerance + 1`, and return the winner iff its difference is within the
tolerance. -/
def find_closest_gps (imageDt : Option ℚ) (gpsLog : List TrackPoint)
    (maxToleranceSeconds : ℤ) : Option TrackPoint :=
  match imageDt with
  | none => none
  | some t =>
    if gpsLog.isEmpty then none
    else
      let gpsTimes := gpsLog.map TrackPoint.time
      let idx := bisect_left gpsTimes t
      let maxDiffAllowed : ℚ := (maxToleranceSeconds : ℚ)
      let st := (candidatesOf gpsLog idx).foldl (closestStep t) (maxDiffAllowed + 1, none)
      match st.2 with
      | some p => if st.1 ≤ maxDiffAllowed then some p else none
      | none => none

/-! ### Per-file processing and the batch orchestrator -/

/-- The status-line fragments `process_single_image` can append, in place of
the formatted strings of the source. -/
inductive StatusMark where
  /-- "[添加失败]" — the GPS write failed. -/
  | addFailed
  /-- "[无匹配GPS (...)]" — no track point within tolerance. -/
  | noMatch (imgTime : ℚ)
  /-- "[无拍摄时间]" — no capture timestamp. -/
  | noCaptureTime
  /-- "包含 GPS". -/
  | containsGps
  /-- The displayed decimal coordinates. -/
  | coords (lat lon : ℚ)
  /-- "(坐标解析失败)" — decimal conversion returned no coordinates. -/
  | coordsParseFailed
  /-- "无 GPS 信息". -/
  | noGpsInfo
  /-- "-> 已移动". -/
  | movedMark
  /-- "-> 移动失败 (...)". -/
  | moveFailed
  /-- "[处理失败]" — recorded by `scan_images` when the worker raised. -/
  | processFailed
deriving DecidableEq, Repr

/-- The `any(x in status_line for x in ["[", "失败"])` test, evaluated over
the marks that can be present at that point: exactly the bracketed ones. -/
def markHasBracket : StatusMark → Bool
  | .addFailed => true
  | .noMatch _ => true
  | .noCaptureTime => true
  | .processFailed => true
  | _ => false

/-- The per-file result dictionary. -/
structure ProcessingResult where
  filename : String
  marks : List StatusMark
  has_gps : Bool
  added : Bool
  moved : Bool
deriving DecidableEq, Repr

/-- The file-system facing inputs of one `process_single_image` task.  The
calls the source wraps in their own try/except blocks are oracles here:
`exifData` is the `get_exif_data` result (`none` on a read failure),
`imgTime` the `get_image_datetime` result (parsing failures yield `none`),
`writeOk` the `add_gps_to_image` success flag, `exifAfterWrite` the metadata
re-read after a successful write, and `moveOk` the `os.rename` success flag. -/
structure FileEnv where
  filename : String
  exifData : Option ExifData
  imgTime : Option ℚ
  writeOk : Bool
  exifAfterWrite : Option ExifData
  moveOk : Bool

/-- Shared configuration of one scan run. -/
structure ScanConfig where
  gpsLog : Option (List TrackPoint)
  overwriteGps : Bool
  timeTolerance : ℤ
  showCoords : Bool
  moveNogps : Bool

/-- `process_single_image` (src/gps_checker.py lines 384-443).  The value is
`Except` because the coordinate-display path calls `convert_gps_to_decimal`,
whose uncaught errors escape the worker; every other failure is handled
inside and becomes part of the result. -/
def process_single_image (cfg : ScanConfig) (env : FileEnv) :
    Except PyErr ProcessingResult :=
  let gpsInfo0 := get_gps_info env.exifData
  let hasGps0 := gpsInfo0.isSome
  -- the add/overwrite attempt (lines 395-414)
  let step1 : List StatusMark × Option (List (GpsKey × PyVal)) × Bool × Bool :=
    match cfg.gpsLog with
    | some log =>
      if !log.isEmpty && (!hasGps0 || cfg.overwriteGps) then
        match env.imgTime with
        | some t =>
          match find_closest_gps (some t) log cfg.timeTolerance with
          | some _ =>
            if env.writeOk then
              ([], get_gps_info env.exifAfterWrite, true, true)
            else ([.addFailed], gpsInfo0, hasGps0, false)
          | none =>
            (if !hasGps0 then [.noMatch t] else [], gpsInfo0, hasGps0, false)
        | none =>
          (if !hasGps0 then [.noCaptureTime] else [], gpsInfo0, hasGps0, false)
      else ([], gpsInfo0, hasGps0, false)
    | none => ([], gpsInfo0, hasGps0, false)
  let marks1 := step1.1
  let gpsInfo1 := step1.2.1
  let hasGps1 := step1.2.2.1
  let added := step1.2.2.2
  -- final classification (lines 417-443)
  if hasGps1 && gpsInfo1.isSome then
    let gi := gpsInfo1.getD []
    if cfg.showCoords then
      match convert_gps_to_decimal gi with
      | .error e => .error e
      | .ok (some lat, some lon) =>
        .ok ⟨env.filename, marks1 ++ [.containsGps, .coords lat lon], hasGps1, added, false⟩
      | .ok _ =>
        .ok ⟨env.filename, marks1 ++ [.containsGps, .coordsParseFailed], hasGps1, added, false⟩
    else .ok ⟨env.filename, marks1 ++ [.containsGps], hasGps1, added, false⟩
  else
    let marks2 := if marks1.any markHasBracket then marks1 else marks1 ++ [.noGpsInfo]
    if cfg.moveNogps then
      if env.moveOk then .ok ⟨env.filename, marks2 ++ [.movedMark], hasGps1, added, true⟩
      else .ok ⟨env.filename, marks2 ++ [.moveFailed], hasGps1, added, false⟩
    else .ok ⟨env.filename, marks2, hasGps1, added, false⟩

/-- The per-future handler of `scan_images` (lines 492-502): `future.result()`
either yields the worker's record or, on any exception, is converted into a
failure record for that file. -/
def handleWorker (cfg : ScanConfig) (env : FileEnv) : ProcessingResult :=
  match process_single_image cfg env with
  | .ok r => r
  | .error _ => ⟨env.filename, [.processFailed], false, false, false⟩

/-- The result-collection loop of `scan_images`: one record per submitted
file.  Collection order is as-completed, hence unspecified; the aggregation
below is order-insensitive, so submission order is used. -/
def scan_images (cfg : ScanConfig) (envs : List FileEnv) : List ProcessingResult :=
  envs.map (handleWorker cfg)

/-- The aggregate counters printed by `scan_images` (lines 504-516). -/
structure ScanSummary where
  total : ℕ
  countGps : ℕ
  countAdded : ℕ
  countMoved : ℕ
  countNogpsFinal : ℕ
deriving DecidableEq, Repr

/-- The summary computation of `scan_images`: counts over the collected
results, with the final no-GPS count defined as `total - count_gps`. -/
def summarize (total : ℕ) (results : List ProcessingResult) : ScanSummary :=
  let countGps := results.countP (·.has_gps)
  ⟨total, countGps, results.countP (·.added), results.countP (·.moved), total - countGps⟩

/-- A GPS info dictionary holding exactly the four coordinate tags (used to
state the hemisphere-sign facts). -/
def mkRefInfo (vlat rlat vlon rlon : PyVal) : List (GpsKey × PyVal) :=
  [(.lat, vlat), (.latRef, rlat), (.lon, vlon), (.lonRef, rlon)]

/-! ## Helper lemmas -/

lemma sorted_getD_mono {a : List ℚ} (hs : List.Sorted (· ≤ ·) a) {i j : ℕ}
    (hij : i ≤ j) (hj : j < a.length) : a.getD i 0 ≤ a.getD j 0 := by
  have hi : i < a.length := lt_of_le_of_lt hij hj
  rw [List.getD_eq_getElem _ _ hi, List.getD_eq_getElem _ _ hj]
  rcases eq_or_lt_of_le hij with rfl | hlt
  · exact le_refl _
  · exact (List.pairwise_iff_getElem.mp hs) i j hi hj hlt

lemma bisectLoop_ge (a : List ℚ) (x : ℚ) :
    ∀ fuel lo hi : ℕ, lo ≤ bisectLoop a x fuel lo hi := by
  intro fuel
  induction fuel with
  | zero => intro lo hi; simp [bisectLoop]
  | succ n ih =>
    intro lo hi
    simp only [bisectLoop]
    by_cases h : lo < hi
    · simp only [if_pos h]
      by_cases hm : a.getD ((lo + hi) / 2) 0 < x
      · simp only [if_pos hm]
        have := ih ((lo + hi) / 2 + 1) hi
        omega
      · simp only [if_neg hm]
        exact ih lo ((lo + hi) / 2)
    · simp [if_neg h]

lemma bisectLoop_le (a : List ℚ) (x : ℚ) :
    ∀ fuel lo hi : ℕ, lo ≤ hi → bisectLoop a x fuel lo hi ≤ hi := by
  intro fuel
  induction fuel with
  | zero => intro lo hi h; simpa [bisectLoop] using h
  | succ n ih =>
    intro lo hi h
    simp only [bisectLoop]
    by_cases hlt : lo < hi
    · simp only [if_pos hlt]
      by_cases hm : a.getD ((lo + hi) / 2) 0 < x
      · simp only [if_pos hm]
        exact ih ((lo + hi) / 2 + 1) hi (by omega)
      · simp only [if_neg hm]
        have := ih lo ((lo + hi) / 2) (by omega)
        omega
    · simpa [if_neg hlt] using h

lemma bisectLoop_lower {a : List ℚ} {x : ℚ} (hs : List.Sorted (· ≤ ·) a) :
    ∀ fuel lo hi : ℕ, hi - lo ≤ fuel → hi ≤ a.length →
      (∀ i, i < lo → a.getD i 0 < x) →
      ∀ i, i < bisectLoop a x fuel lo hi → a.getD i 0 < x := by
  intro fuel
  induction fuel with
  | zero =>
    intro lo hi hfuel _ hlow i hi2
    simp only [bisectLoop] at hi2
    exact hlow i hi2
  | succ n ih =>
    intro lo hi hfuel hlen hlow i hi2
    simp only [bisectLoop] at hi2
    by_cases hlt : lo < hi
    · rw [if_pos hlt] at hi2
      by_cases hm : a.getD ((lo + hi) / 2) 0 < x
      · rw [if_pos hm] at hi2
        refine ih ((lo + hi) / 2 + 1) hi (by omega) hlen ?_ i hi2
        intro j hj
        rcases lt_or_le j lo with hjlo | hjlo
        · exact hlow j hjlo
        · exact lt_of_le_of_lt (sorted_getD_mono hs (by omega) (by omega)) hm
      · rw [if_neg hm] at hi2
        exact ih lo ((lo + hi) / 2) (by omega) (by omega) hlow i hi2
    · rw [if_neg hlt] at hi2
      exact hlow i hi2

lemma bisectLoop_upper {a : List ℚ} {x : ℚ} (hs : List.Sorted (· ≤ ·) a) :
    ∀ fuel lo hi : ℕ, hi - lo ≤ fuel → hi ≤ a.length →
      (∀ i, hi ≤ i → i < a.length → x ≤ a.getD i 0) →
      ∀ i, bisectLoop a x fuel lo hi ≤ i → i < a.length → x ≤ a.getD i 0 := by
  intro fuel
  induction fuel with
  | zero =>
    intro lo hi hfuel _ hup i hi2 hilen
    simp only [bisectLoop] at hi2
    exact hup i (by omega) hilen
  | succ n ih =>
    intro lo hi hfuel hlen hup i hi2 hilen
    simp only [bisectLoop] at hi2
    by_cases hlt : lo < hi
    · rw [if_pos hlt] at hi2
      by_cases hm : a.getD ((lo + hi) / 2) 0 < x
      · rw [if_pos hm] at hi2
        exact ih ((lo + hi) / 2 + 1) hi (by omega) hlen hup i hi2 hilen
      · rw [if_neg hm] at hi2
        refine ih lo ((lo + hi) / 2) (by omega) (by omega) ?_ i hi2 hilen
        intro j hj hjlen
        exact le_trans (not_lt.mp hm) (sorted_getD_mono hs hj hjlen)
    · rw [if_neg hlt] at hi2
      exact hup i (by omega) hilen

lemma foldl_closestStep_spec (t : ℚ) :
    ∀ (l : List TrackPoint) (acc : ℚ × Option TrackPoint),
      (∀ p, acc.2 = some p → acc.1 = |t - p.time|) →
      (l.foldl (closestStep t) acc).1 ≤ acc.1 ∧
      (∀ q ∈ l, (l.foldl (closestStep t) acc).1 ≤ |t - q.time|) ∧
      (∀ p, (l.foldl (closestStep t) acc).2 = some p →
        (l.foldl (closestStep t) acc).1 = |t - p.time| ∧ (p ∈ l ∨ acc.2 = some p)) ∧
      ((l.foldl (closestStep t) acc).2 = none →
        (l.foldl (closestStep t) acc).1 = acc.1 ∧ acc.2 = none) := by
  intro l
  induction l with
  | nil =>
    intro acc hacc
    refine ⟨le_refl _, by simp, ?_, ?_⟩
    · intro p hp
      exact ⟨hacc p hp, Or.inr hp⟩
    · intro h
      exact ⟨rfl, h⟩
  | cons q l ih =>
    intro acc hacc
    have hstep : ∀ p, (closestStep t acc q).2 = some p →
        (closestStep t acc q).1 = |t - p.time| := by
      intro p hp
      by_cases hq : |t - q.time| < acc.1
      · simp only [closestStep, if_pos hq] at hp ⊢
        obtain rfl : q = p := by simpa using hp
        rfl
      · simp only [closestStep, if_neg hq] at hp ⊢
        exact hacc p hp
    obtain ⟨ih1, ih2, ih3, ih4⟩ := ih (closestStep t acc q) hstep
    have hstep1 : (closestStep t acc q).1 ≤ acc.1 := by
      by_cases hq : |t - q.time| < acc.1
      · simp only [closestStep, if_pos hq]
        exact le_of_lt hq
      · simp only [closestStep, if_neg hq]
        exact le_refl _
    have hstepq : (closestStep t acc q).1 ≤ |t - q.time| := by
      by_cases hq : |t - q.time| < acc.1
      · simp only [closestStep, if_pos hq]
        exact le_refl _
      · simp only [closestStep, if_neg hq]
        exact not_lt.mp hq
    simp only [List.foldl_cons]
    refine ⟨le_trans ih1 hstep1, ?_, ?_, ?_⟩
    · intro r hr
      rcases List.mem_cons.mp hr with rfl | hr2
      · exact le_trans ih1 hstepq
      · exact ih2 r hr2
    · intro p hp
      obtain ⟨h1, h2⟩ := ih3 p hp
      refine ⟨h1, ?_⟩
      rcases h2 with h2 | h2
      · exact Or.inl (List.mem_cons_of_mem _ h2)
      · by_cases hq : |t - q.time| < acc.1
        · simp only [closestStep, if_pos hq] at h2
          obtain rfl : q = p := by simpa using h2
          exact Or.inl (List.mem_cons_self _ _)
        · simp only [closestStep, if_neg hq] at h2
          exact Or.inr h2
    · intro hnone
      obtain ⟨h1, h2⟩ := ih4 hnone
      by_cases hq : |t - q.time| < acc.1
      · simp only [closestStep, if_pos hq] at h2
        exact absurd h2 (Option.some_ne_none q)
      · have hacc2 : closestStep t acc q = acc := by
          simp only [closestStep, if_neg hq]
        exact ⟨h1.trans (congrArg Prod.fst hacc2),
               ((congrArg Prod.snd hacc2).symm.trans h2)⟩

lemma dictInsert_ne_nil {κ β : Type} [DecidableEq κ] (d : List (κ × β)) (k : κ) (v : β) :
    dictInsert d k v ≠ [] := by
  match d with
  | [] => simp [dictInsert]
  | (k0, v0) :: rest =>
    simp only [dictInsert]
    split <;> simp

lemma foldl_dictInsert_ne_nil :
    ∀ (g : List (ℕ × PyVal)) (acc : List (GpsKey × PyVal)), acc ≠ [] →
      g.foldl (fun acc kv => dictInsert acc (gpsTagKey kv.1) kv.2) acc ≠ [] := by
  intro g
  induction g with
  | nil => intro acc h; simpa using h
  | cons kv rest ih =>
    intro acc h
    simp only [List.foldl_cons]
    exact ih _ (dictInsert_ne_nil acc (gpsTagKey kv.1) kv.2)

lemma mapGpsIfd_ne_nil {g : List (ℕ × PyVal)} (hg : g ≠ []) : mapGpsIfd g ≠ [] := by
  match g with
  | [] => exact absurd rfl hg
  | kv :: rest =>
    simp only [mapGpsIfd, List.foldl_cons]
    exact foldl_dictInsert_ne_nil rest _ (dictInsert_ne_nil [] (gpsTagKey kv.1) kv.2)

lemma find_closest_gps_eq (t : ℚ) (gpsLog : List TrackPoint) (tol : ℤ)
    (hne : gpsLog ≠ []) :
    find_closest_gps (some t) gpsLog tol =
      match ((candidatesOf gpsLog (bisect_left (gpsLog.map TrackPoint.time) t)).foldl
          (closestStep t) ((tol : ℚ) + 1, none)).2 with
      | some p =>
        if ((candidatesOf gpsLog (bisect_left (gpsLog.map TrackPoint.time) t)).foldl
            (closestStep t) ((tol : ℚ) + 1, none)).1 ≤ (tol : ℚ) then some p else none
      | none => none := by
  have hEmpty : gpsLog.isEmpty = false := by
    cases gpsLog with
    | nil => exact absurd rfl hne
    | cons a l => rfl
  simp only [find_closest_gps, hEmpty, Bool.false_eq_true, if_false]

lemma sorted_times_of_sorted {gpsLog : List TrackPoint}
    (hsorted : List.Sorted timeLE gpsLog) :
    List.Sorted (· ≤ ·) (gpsLog.map TrackPoint.time) :=
  List.Pairwise.map TrackPoint.time (fun _ _ h => h) hsorted

/-! ## Claims -/

/-- C1: for every sorted non-empty track log, query time and tolerance,
`find_closest_gps` binary-searches the timestamp array for the insertion
point of the query time (everything strictly before it is `< t`, everything
from it on is `≥ t`), considers only the immediate predecessor/successor
candidates, and returns the candidate with the smaller absolute difference
iff that difference is `≤` the tolerance (otherwise `none`); on the boundary
log with points at t=1000 and t=2000, querying t=1300 with tolerance 300
returns the t=1000 point, and with tolerance 299 returns none. -/
theorem C1_find_closest_two_candidates :
    (∀ (gpsLog : List TrackPoint) (t : ℚ) (tol : ℤ),
      gpsLog ≠ [] → List.Sorted timeLE gpsLog →
      (bisect_left (gpsLog.map TrackPoint.time) t ≤ gpsLog.length ∧
        (∀ i (h : i < gpsLog.length), i < bisect_left (gpsLog.map TrackPoint.time) t →
          (gpsLog.get ⟨i, h⟩).time < t) ∧
        (∀ i (h : i < gpsLog.length), bisect_left (gpsLog.map TrackPoint.time) t ≤ i →
          t ≤ (gpsLog.get ⟨i, h⟩).time)) ∧
      (∀ p, find_closest_gps (some t) gpsLog tol = some p →
        p ∈ candidatesOf gpsLog (bisect_left (gpsLog.map TrackPoint.time) t) ∧
        |t - p.time| ≤ (tol : ℚ) ∧
        ∀ q ∈ candidatesOf gpsLog (bisect_left (gpsLog.map TrackPoint.time) t),
          |t - p.time| ≤ |t - q.time|) ∧
      (find_closest_gps (some t) gpsLog tol = none →
        ∀ q ∈ candidatesOf gpsLog (bisect_left (gpsLog.map TrackPoint.time) t),
          (tol : ℚ) < |t - q.time|)) ∧
    find_closest_gps (some 1300) [⟨1000, 0, 0, 0⟩, ⟨2000, 0, 0, 0⟩] 300 =
      some ⟨1000, 0, 0, 0⟩ ∧
    find_closest_gps (some 1300) [⟨1000, 0, 0, 0⟩, ⟨2000, 0, 0, 0⟩] 299 = none := by
  refine ⟨?_, ?_, ?_⟩
  · intro gpsLog t tol hne hsorted
    have hsT : List.Sorted (· ≤ ·) (gpsLog.map TrackPoint.time) :=
      sorted_times_of_sorted hsorted
    have hlen : (gpsLog.map TrackPoint.time).length = gpsLog.length :=
      List.length_map _ _
    have hgetD : ∀ i (h : i < gpsLog.length),
        (gpsLog.map TrackPoint.time).getD i 0 = (gpsLog.get ⟨i, h⟩).time := by
      intro i h
      rw [List.getD_eq_getElem _ _ (by omega), List.getElem_map, List.get_eq_getElem]
    obtain ⟨_, hmin, hsome, hnone⟩ :=
      foldl_closestStep_spec t
        (candidatesOf gpsLog (bisect_left (gpsLog.map TrackPoint.time) t))
        ((tol : ℚ) + 1, none) (by intro p hp; simp at hp)
    refine ⟨⟨?_, ?_, ?_⟩, ?_, ?_⟩
    · have := bisectLoop_le (gpsLog.map TrackPoint.time) t
        (gpsLog.map TrackPoint.time).length 0 (gpsLog.map TrackPoint.time).length
        (Nat.zero_le _)
      simpa [bisect_left, hlen] using this
    · intro i h hidx
      rw [← hgetD i h]
      exact bisectLoop_lower hsT (gpsLog.map TrackPoint.time).length 0
        (gpsLog.map TrackPoint.time).length (by omega) (le_refl _)
        (fun j hj => absurd hj (Nat.not_lt_zero j)) i hidx
    · intro i h hidx
      rw [← hgetD i h]
      exact bisectLoop_upper hsT (gpsLog.map TrackPoint.time).length 0
        (gpsLog.map TrackPoint.time).length (by omega) (le_refl _)
        (fun j hj hjlen => by omega) i hidx (by omega)
    · intro p hp
      rw [find_closest_gps_eq t gpsLog tol hne] at hp
      split at hp
      next p' hq =>
        split at hp
        next hle =>
          obtain rfl : p' = p := by simpa using hp
          obtain ⟨hd, hmem⟩ := hsome p' hq
          rcases hmem with hmem | hmem
          · exact ⟨hmem, hd ▸ hle, fun q hq2 => hd ▸ hmin q hq2⟩
          · exact absurd hmem (by simp)
        next hle => exact absurd hp (by simp)
      next hq => exact absurd hp (by simp)
    · intro hfnone q hq2
      rw [find_closest_gps_eq t gpsLog tol hne] at hfnone
      split at hfnone
      next p' hq =>
        split at hfnone
        next hle => exact absurd hfnone (by simp)
        next hle =>
          have := hmin q hq2
          push_neg at hle
          linarith
      next hq =>
        obtain ⟨h1, _⟩ := hnone hq
        have h2 : (tol : ℚ) + 1 ≤ |t - q.time| := by
          have := hmin q hq2
          rw [h1] at this
          simpa using this
        linarith
  · norm_num [find_closest_gps, bisect_left, bisectLoop, candidatesOf, closestStep, List.getD]
  · norm_num [find_closest_gps, bisect_left, bisectLoop, candidatesOf, closestStep, List.getD]

/-- Witness for C1 at the concrete two-point boundary log. -/
theorem C1_find_closest_two_candidates_witness :
    bisect_left (([⟨1000, 0, 0, 0⟩, ⟨2000, 0, 0, 0⟩] :
      List TrackPoint).map TrackPoint.time) 1300 ≤ 2 :=
  (C1_find_closest_two_candidates.1 [⟨1000, 0, 0, 0⟩, ⟨2000, 0, 0, 0⟩] 1300 300
    (by simp)
    (by norm_num [List.sorted_cons, timeLE])).1.1

/-- C2 counterexample: on the symmetric tie (points at t=1000 and t=2000,
query t=1500, tolerance 500, both differences 500), `find_closest_gps`
returns the t=1000 point — the candidate evaluated first (the predecessor) —
not the successor claimed by the spec. -/
theorem C2_tie_counterexample :
    find_closest_gps (some 1500) [⟨1000, 0, 0, 0⟩, ⟨2000, 0, 0, 0⟩] 500 =
      some ⟨1000, 0, 0, 0⟩ ∧
    find_closest_gps (some 1500) [⟨1000, 0, 0, 0⟩, ⟨2000, 0, 0, 0⟩] 500 ≠
      some ⟨2000, 0, 0, 0⟩ ∧
    candidatesOf [⟨1000, 0, 0, 0⟩, ⟨2000, 0, 0, 0⟩]
      (bisect_left (([⟨1000, 0, 0, 0⟩, ⟨2000, 0, 0, 0⟩] :
        List TrackPoint).map TrackPoint.time) 1500) =
      [⟨1000, 0, 0, 0⟩, ⟨2000, 0, 0, 0⟩] ∧
    |(1500 : ℚ) - 1000| = |(1500 : ℚ) - 2000| := by
  refine ⟨?_, ?_, ?_, by norm_num⟩
  · norm_num [find_closest_gps, bisect_left, bisectLoop, candidatesOf, closestStep, List.getD]
  · norm_num [find_closest_gps, bisect_left, bisectLoop, candidatesOf, closestStep, List.getD]
  · norm_num [bisect_left, bisectLoop, candidatesOf, List.getD]

/-- C2 (amended): when the predecessor and successor candidates are exactly
equidistant from the query time and within tolerance, `find_closest_gps`
returns the candidate evaluated first — the predecessor — because the strict
`<` comparison never lets the equal, later candidate replace it. -/
theorem C2_tie_returns_first_candidate :
    ∀ (gpsLog : List TrackPoint) (t : ℚ) (tol : ℤ) (pred succ : TrackPoint),
      gpsLog ≠ [] →
      candidatesOf gpsLog (bisect_left (gpsLog.map TrackPoint.time) t) = [pred, succ] →
      |t - pred.time| = |t - succ.time| →
      |t - pred.time| ≤ (tol : ℚ) →
      find_closest_gps (some t) gpsLog tol = some pred := by
  intro gpsLog t tol pred succ hne hcands htie htol
  rw [find_closest_gps_eq t gpsLog tol hne, hcands]
  have h1 : closestStep t ((tol : ℚ) + 1, none) pred = (|t - pred.time|, some pred) := by
    simp only [closestStep, if_pos (show |t - pred.time| < (tol : ℚ) + 1 by linarith)]
  have h2 : closestStep t (|t - pred.time|, some pred) succ =
      (|t - pred.time|, some pred) := by
    simp only [closestStep]
    rw [if_neg]
    rw [← htie]
    exact lt_irrefl _
  simp only [List.foldl_cons, List.foldl_nil, h1, h2]
  exact if_pos htol

/-- Witness for C2 (amended) at the concrete symmetric tie. -/
theorem C2_tie_returns_first_candidate_witness :
    find_closest_gps (some 1500) [⟨1000, 0, 0, 0⟩, ⟨2000, 0, 0, 0⟩] 500 =
      some ⟨1000, 0, 0, 0⟩ :=
  C2_tie_returns_first_candidate [⟨1000, 0, 0, 0⟩, ⟨2000, 0, 0, 0⟩] 1500 500
    ⟨1000, 0, 0, 0⟩ ⟨2000, 0, 0, 0⟩ (by simp)
    (by norm_num [bisect_left, bisectLoop, candidatesOf, List.getD])
    (by norm_num) (by norm_num)

/-- C7: `add_gps_to_image` builds a fresh GPS section with version tag exactly
(2,0,0,0) and altitude reference fixed to above-sea-level (0), includes the
GPS timestamp and datestamp tags exactly when a capture time is supplied,
installs the section by wholesale replacement (the new section does not depend
on the previous GPS section at all), and leaves every other metadata section
unchanged. -/
theorem C7_write_gps_section_replacement :
    ∀ (exif : ExifDict) (lat lon alt : ℚ) (ts : Option PyDatetime),
      (add_gps_to_image exif lat lon alt ts).gps = buildGpsIfd lat lon alt ts ∧
      (add_gps_to_image exif lat lon alt ts).zeroth = exif.zeroth ∧
      (add_gps_to_image exif lat lon alt ts).exifIfd = exif.exifIfd ∧
      (add_gps_to_image exif lat lon alt ts).interop = exif.interop ∧
      (add_gps_to_image exif lat lon alt ts).firstIfd = exif.firstIfd ∧
      (add_gps_to_image exif lat lon alt ts).thumbnail = exif.thumbnail ∧
      (∀ exif2 : ExifDict,
        (add_gps_to_image exif2 lat lon alt ts).gps = (add_gps_to_image exif lat lon alt ts).gps) ∧
      dictGet (buildGpsIfd lat lon alt ts) 0 =
        some (.pyTuple [.pyInt 2, .pyInt 0, .pyInt 0, .pyInt 0]) ∧
      dictGet (buildGpsIfd lat lon alt ts) 5 = some (.pyInt 0) ∧
      ((dictGet (buildGpsIfd lat lon alt ts) 7).isSome ↔ ts.isSome) ∧
      ((dictGet (buildGpsIfd lat lon alt ts) 29).isSome ↔ ts.isSome) := by
  intro exif lat lon alt ts
  refine ⟨rfl, rfl, rfl, rfl, rfl, rfl, fun exif2 => rfl, ?_, ?_, ?_, ?_⟩ <;>
    cases ts <;> simp [buildGpsIfd, dictGet]

/-- C10: the written GPS altitude tag is the magnitude `|alt|` encoded as the
rational `(int(|alt| * 100), 100)` with the altitude-reference tag always 0
(above sea level); the altitude's sign is lost — the section written for
`alt` is identical to the one written for `|alt|` — and the encoded numerator
is never negative. -/
theorem C10_altitude_sign_lost :
    ∀ (lat lon alt : ℚ) (ts : Option PyDatetime),
      dictGet (buildGpsIfd lat lon alt ts) 6 =
        some (.pyTuple [.pyInt ⌊|alt| * 100⌋, .pyInt 100]) ∧
      dictGet (buildGpsIfd lat lon alt ts) 5 = some (.pyInt 0) ∧
      buildGpsIfd lat lon alt ts = buildGpsIfd lat lon |alt| ts ∧
      0 ≤ ⌊|alt| * 100⌋ := by
  intro lat lon alt ts
  refine ⟨?_, ?_, ?_, Int.floor_nonneg.mpr (by positivity)⟩ <;>
    cases ts <;> simp [buildGpsIfd, dictGet, abs_abs]

/-- C5: for GPS records whose DMS values convert, the hemisphere sign
convention holds — latitude reference "S" negates the magnitude and "N" keeps
it positive, longitude "W" negates and "E" keeps positive — for all four
combinations, and a reference supplied as a byte sequence behaves identically
to the same reference supplied as text. -/
theorem C5_hemisphere_sign :
    ∀ (vlat vlon : PyVal) (mlat mlon : ℚ),
      pyTruthy vlat = true → pyTruthy vlon = true →
      convertToDegrees vlat = .value mlat → convertToDegrees vlon = .value mlon →
      convert_gps_to_decimal (mkRefInfo vlat (.pyStr "N" none) vlon (.pyStr "E" none)) =
        .ok (some mlat, some mlon) ∧
      convert_gps_to_decimal (mkRefInfo vlat (.pyStr "S" none) vlon (.pyStr "E" none)) =
        .ok (some (-mlat), some mlon) ∧
      convert_gps_to_decimal (mkRefInfo vlat (.pyStr "N" none) vlon (.pyStr "W" none)) =
        .ok (some mlat, some (-mlon)) ∧
      convert_gps_to_decimal (mkRefInfo vlat (.pyStr "S" none) vlon (.pyStr "W" none)) =
        .ok (some (-mlat), some (-mlon)) ∧
      (∀ a b : String,
        convert_gps_to_decimal (mkRefInfo vlat (.pyBytes a) vlon (.pyBytes b)) =
          convert_gps_to_decimal (mkRefInfo vlat (.pyStr a none) vlon (.pyStr b none))) := by
  intro vlat vlon mlat mlon htlat htlon hlat hlon
  have hN : pyTruthy (PyVal.pyStr "N" none) = true := rfl
  have hS : pyTruthy (PyVal.pyStr "S" none) = true := rfl
  have hE : pyTruthy (PyVal.pyStr "E" none) = true := rfl
  have hW : pyTruthy (PyVal.pyStr "W" none) = true := rfl
  refine ⟨?_, ?_, ?_, ?_, fun a b => rfl⟩ <;>
    (simp [convert_gps_to_decimal, mkRefInfo, dictGet, htlat, htlon, hlat, hlon,
       outcomeToExcept, refStr, hN, hS, hE, hW]
     rfl)

/-- Witness for C5 at a concrete 40°30'0" / 73°0'0" record. -/
theorem C5_hemisphere_sign_witness :
    convert_gps_to_decimal (mkRefInfo
      (.pyTuple [.pyTuple [.pyInt 40, .pyInt 1], .pyTuple [.pyInt 30, .pyInt 1],
        .pyTuple [.pyInt 0, .pyInt 1]])
      (.pyStr "S" none)
      (.pyTuple [.pyTuple [.pyInt 73, .pyInt 1], .pyTuple [.pyInt 0, .pyInt 1],
        .pyTuple [.pyInt 0, .pyInt 1]])
      (.pyStr "W" none)) = .ok (some (-(81 / 2)), some (-73)) :=
  (C5_hemisphere_sign
    (.pyTuple [.pyTuple [.pyInt 40, .pyInt 1], .pyTuple [.pyInt 30, .pyInt 1],
      .pyTuple [.pyInt 0, .pyInt 1]])
    (.pyTuple [.pyTuple [.pyInt 73, .pyInt 1], .pyTuple [.pyInt 0, .pyInt 1],
      .pyTuple [.pyInt 0, .pyInt 1]])
    (81 / 2) 73 rfl rfl
    (by norm_num [convertToDegrees, convertBody, pairQuot, floatOf, pyDiv, isPair2,
      pairComponents, Except.instMonad, Bind.bind, Except.bind])
    (by norm_num [convertToDegrees, convertBody, pairQuot, floatOf, pyDiv, isPair2,
      pairComponents, Except.instMonad, Bind.bind, Except.bind])).2.2.2.1

/-- C3 counterexample: a GPS section holding only the version tag — all four
latitude/longitude value/reference tags absent — is still reported as present
(`some`) by `get_gps_info` of src/gps_checker.py; only the src/check_gps.py
variant reports it as absent. -/
theorem C3_presence_counterexample :
    (get_gps_info (some (.piexifDict ⟨[], [],
      [(0, .pyTuple [.pyInt 2, .pyInt 0, .pyInt 0, .pyInt 0])], [], [], none⟩))).isSome
      = true ∧
    (∀ k ∈ requiredTags,
      (dictGet (mapGpsIfd [((0 : ℕ),
        PyVal.pyTuple [.pyInt 2, .pyInt 0, .pyInt 0, .pyInt 0])]) k).isNone = true) ∧
    CheckGps.get_gps_info (some (.piexifDict ⟨[], [],
      [(0, .pyTuple [.pyInt 2, .pyInt 0, .pyInt 0, .pyInt 0])], [], [], none⟩)) = none := by
  refine ⟨rfl, ?_, rfl⟩
  intro k hk
  fin_cases hk <;> rfl

/-- C3 (amended): the src/check_gps.py reader reports GPS as present exactly
when the GPS section is non-empty and all four of latitude value, latitude
reference, longitude value and longitude reference are present; the
src/gps_checker.py reader reports GPS as present whenever the GPS section is
non-empty, regardless of which tags it holds; and the decimal-coordinate
conversion is all-or-nothing — any of the four missing yields no coordinates
(an absent value, not an error). -/
theorem C3_gps_presence_amended :
    (∀ (z ex g i f : List (ℕ × PyVal)) (th : Option (List ℕ)),
      (CheckGps.get_gps_info (some (.piexifDict ⟨z, ex, g, i, f, th⟩))).isSome = true ↔
        (g ≠ [] ∧ ∀ k ∈ requiredTags, (dictGet (mapGpsIfd g) k).isSome = true)) ∧
    (∀ (z ex g i f : List (ℕ × PyVal)) (th : Option (List ℕ)),
      (get_gps_info (some (.piexifDict ⟨z, ex, g, i, f, th⟩))).isSome = true ↔ g ≠ []) ∧
    (∀ d : List (GpsKey × PyVal),
      (dictGet d .lat = none ∨ dictGet d .latRef = none ∨ dictGet d .lon = none ∨
        dictGet d .lonRef = none) →
      convert_gps_to_decimal d = .ok (none, none)) := by
  refine ⟨?_, ?_, ?_⟩
  · intro z ex g i f th
    by_cases hg : g = []
    · subst hg
      simp [CheckGps.get_gps_info, exifTruthy, gpsIfdOf]
    · have h1 : g.isEmpty = false := by simpa using hg
      have h2 : (mapGpsIfd g).isEmpty = false := by simpa using mapGpsIfd_ne_nil hg
      simp [CheckGps.get_gps_info, exifTruthy, gpsIfdOf, h1, h2, hg]
  · intro z ex g i f th
    by_cases hg : g = []
    · subst hg
      simp [get_gps_info, exifTruthy, gpsIfdOf]
    · have h1 : g.isEmpty = false := by simpa using hg
      have h2 : (mapGpsIfd g).isEmpty = false := by simpa using mapGpsIfd_ne_nil hg
      simp [get_gps_info, exifTruthy, gpsIfdOf, h1, h2, hg]
  · intro d h
    cases h1 : dictGet d GpsKey.lat with
    | none => simp [convert_gps_to_decimal, h1]
    | some v1 =>
      cases h2 : dictGet d GpsKey.latRef with
      | none => simp [convert_gps_to_decimal, h1, h2]
      | some v2 =>
        cases h3 : dictGet d GpsKey.lon with
        | none => simp [convert_gps_to_decimal, h1, h2, h3]
        | some v3 =>
          cases h4 : dictGet d GpsKey.lonRef with
          | none => simp [convert_gps_to_decimal, h1, h2, h3, h4]
          | some v4 =>
            rcases h with h | h | h | h
            · rw [h1] at h; exact absurd h (by simp)
            · rw [h2] at h; exact absurd h (by simp)
            · rw [h3] at h; exact absurd h (by simp)
            · rw [h4] at h; exact absurd h (by simp)

/-- Witness for C3 (amended): an empty dictionary misses the latitude tag and
converts to no coordinates. -/
theorem C3_gps_presence_amended_witness :
    convert_gps_to_decimal [] = .ok (none, none) :=
  C3_gps_presence_amended.2.2 [] (Or.inl rfl)

lemma convert_pairs_eval (a b c d e f : ℤ) (hb : (b : ℚ) ≠ 0) (hd : (d : ℚ) ≠ 0)
    (hf : (f : ℚ) ≠ 0) :
    convertToDegrees (.pyTuple [.pyTuple [.pyInt a, .pyInt b],
        .pyTuple [.pyInt c, .pyInt d], .pyTuple [.pyInt e, .pyInt f]]) =
      .value ((a : ℚ) / b + ((c : ℚ) / d) / 60 + ((e : ℚ) / f) / 3600) := by
  simp [convertToDegrees, convertBody, pairQuot, floatOf, pyDiv, isPair2, pairComponents,
    Except.instMonad, Bind.bind, Except.bind, hb, hd, hf]

/-- C4 counterexample: a rational pair holding a non-numeric string raises an
uncaught `ValueError` from `float()` — the `except (TypeError,
ZeroDivisionError, IndexError, AttributeError)` handler does not catch it, so
this malformed shape crashes instead of being treated as an absent
coordinate. -/
theorem C4_uncaught_valueerror_counterexample :
    convertToDegrees (.pyTuple [.pyTuple [.pyStr "abc" none, .pyInt 1],
        .pyTuple [.pyInt 1, .pyInt 1], .pyTuple [.pyInt 1, .pyInt 1]]) =
      .raised .valueErrorBadStr ∧
    caughtByConvertHandler .valueErrorBadStr = false :=
  ⟨rfl, rfl⟩

/-- C4 (amended): for a 3-element input, three same-shape elements with no
zero denominator convert to `d + m/60 + s/3600`; a zero denominator is the
(recoverable) division-by-zero error, checked in degree/minute/second order;
mixing the pair shape or the plain-number shape with another shape is the
(recoverable) inconsistent-format error, while in the rational-attribute
branch mixing surfaces as a (recoverable) attribute error instead; a
non-3-element value or an unrecognised first element is the (recoverable)
unrecognised-format error; but a rational pair holding an unparsable string
raises an uncaught `ValueError` — a crash, not a recoverable conversion
error. -/
theorem C4_convert_shapes_amended :
    (∀ a b c d e f : ℤ,
      convertToDegrees (.pyTuple [.pyTuple [.pyInt a, .pyInt b],
          .pyTuple [.pyInt c, .pyInt d], .pyTuple [.pyInt e, .pyInt f]]) =
        if b = 0 then .recovered .zeroDivisionError
        else if d = 0 then .recovered .zeroDivisionError
        else if f = 0 then .recovered .zeroDivisionError
        else .value ((a : ℚ) / b + ((c : ℚ) / d) / 60 + ((e : ℚ) / f) / 3600)) ∧
    (∀ x y z : ℚ,
      convertToDegrees (.pyTuple [.pyFloat x, .pyFloat y, .pyFloat z]) =
        .value (x + y / 60 + z / 3600)) ∧
    (∀ n1 d1 n2 d2 n3 d3 : ℤ,
      convertToDegrees (.pyTuple [.pyRat n1 d1, .pyRat n2 d2, .pyRat n3 d3]) =
        if d1 = 0 then .recovered .zeroDivisionError
        else if d2 = 0 then .recovered .zeroDivisionError
        else if d3 = 0 then .recovered .zeroDivisionError
        else .value ((n1 : ℚ) / d1 + ((n2 : ℚ) / d2) / 60 + ((n3 : ℚ) / d3) / 3600)) ∧
    (∀ (v0a v0b v1 v2 : PyVal),
      pairComponents v1 = none ∨ pairComponents v2 = none →
      convertToDegrees (.pyTuple [.pyTuple [v0a, v0b], v1, v2]) =
        .recovered .typeErrorMixed) ∧
    (∀ v0 v1 v2 : PyVal, isNumber v0 = true → (isNumber v1 && isNumber v2) = false →
      convertToDegrees (.pyTuple [v0, v1, v2]) = .recovered .typeErrorMixed) ∧
    (∀ (n d : ℤ) (v1 v2 : PyVal), d ≠ 0 → ratAttrs v1 = .error .attributeError →
      convertToDegrees (.pyTuple [.pyRat n d, v1, v2]) = .recovered .attributeError) ∧
    (∀ xs : List PyVal, xs.length ≠ 3 →
      convertToDegrees (.pyTuple xs) = .recovered .typeErrorNot3) ∧
    (∀ v0 v1 v2 : PyVal, isPair2 v0 = false → isNumber v0 = false →
      hasRatAttrs v0 = false →
      convertToDegrees (.pyTuple [v0, v1, v2]) = .recovered .typeErrorUnknown) ∧
    (∀ (s : String) (p1 p2 q1 q2 : PyVal),
      convertToDegrees (.pyTuple [.pyTuple [.pyStr s none, .pyInt 1],
          .pyTuple [p1, p2], .pyTuple [q1, q2]]) = .raised .valueErrorBadStr) := by
  refine ⟨?_, ?_, ?_, ?_, ?_, ?_, ?_, ?_, ?_⟩
  · intro a b c d e f
    by_cases hb : b = 0
    · subst hb
      simp [convertToDegrees, convertBody, pairQuot, floatOf, pyDiv, isPair2,
        pairComponents, Except.instMonad, Bind.bind, Except.bind, caughtByConvertHandler]
    · by_cases hd : d = 0
      · subst hd
        simp [convertToDegrees, convertBody, pairQuot, floatOf, pyDiv, isPair2,
          pairComponents, Except.instMonad, Bind.bind, Except.bind,
          caughtByConvertHandler, hb]
      · by_cases hf : f = 0
        · subst hf
          simp [convertToDegrees, convertBody, pairQuot, floatOf, pyDiv, isPair2,
            pairComponents, Except.instMonad, Bind.bind, Except.bind,
            caughtByConvertHandler, hb, hd]
        · rw [if_neg hb, if_neg hd, if_neg hf]
          exact convert_pairs_eval a b c d e f
            (by exact_mod_cast hb) (by exact_mod_cast hd) (by exact_mod_cast hf)
  · intro x y z
    simp [convertToDegrees, convertBody, floatOf, isPair2, isNumber,
      Except.instMonad, Bind.bind, Except.bind]
  · intro n1 d1 n2 d2 n3 d3
    by_cases h1 : d1 = 0
    · subst h1
      simp [convertToDegrees, convertBody, ratQuot, ratAttrs, pyDiv, isPair2, isNumber,
        hasRatAttrs, Except.instMonad, Bind.bind, Except.bind, caughtByConvertHandler]
    · by_cases h2 : d2 = 0
      · subst h2
        simp [convertToDegrees, convertBody, ratQuot, ratAttrs, pyDiv, isPair2, isNumber,
          hasRatAttrs, Except.instMonad, Bind.bind, Except.bind, caughtByConvertHandler, h1]
      · by_cases h3 : d3 = 0
        · subst h3
          simp [convertToDegrees, convertBody, ratQuot, ratAttrs, pyDiv, isPair2, isNumber,
            hasRatAttrs, Except.instMonad, Bind.bind, Except.bind, caughtByConvertHandler,
            h1, h2]
        · simp [convertToDegrees, convertBody, ratQuot, ratAttrs, pyDiv, isPair2, isNumber,
            hasRatAttrs, Except.instMonad, Bind.bind, Except.bind, h1, h2, h3]
  · intro v0a v0b v1 v2 h
    have h0 : pairComponents (.pyTuple [v0a, v0b]) = some (v0a, v0b) := rfl
    rcases h with h | h <;>
      rcases hv1 : pairComponents v1 with _ | p <;>
        rcases hv2 : pairComponents v2 with _ | q <;>
          simp_all [convertToDegrees, convertBody, isPair2, h0,
            caughtByConvertHandler]
  · intro v0 v1 v2 h0 h12
    have hp : isPair2 v0 = false := by
      cases v0 <;> simp_all [isNumber, isPair2]
    simp [convertToDegrees, convertBody, hp, h0, h12, caughtByConvertHandler]
  · intro n d v1 v2 hd ha
    have hdq : (d : ℚ) ≠ 0 := by exact_mod_cast hd
    have hr0 : ratAttrs (.pyRat n d) = .ok (n, d) := rfl
    simp [convertToDegrees, convertBody, isPair2, isNumber, hasRatAttrs, ratQuot,
      hr0, pyDiv, ha, hdq, Except.instMonad, Bind.bind, Except.bind,
      caughtByConvertHandler]
  · intro xs hxs
    match xs, hxs with
    | [], _ => rfl
    | [_], _ => rfl
    | [_, _], _ => rfl
    | _ :: _ :: _ :: _ :: _, _ => rfl
    | [a, b, c], h => exact absurd rfl h
  · intro v0 v1 v2 h0 h1 h2
    simp [convertToDegrees, convertBody, h0, h1, h2, caughtByConvertHandler]
  · intro s p1 p2 q1 q2
    rfl

/-- Witness for C4 (amended): the rational-attribute branch with a plain
float in second position recovers from the attribute error. -/
theorem C4_convert_shapes_amended_witness :
    convertToDegrees (.pyTuple [.pyRat 81 2, .pyFloat 30, .pyInt 0]) =
      .recovered .attributeError :=
  C4_convert_shapes_amended.2.2.2.2.2.1 81 2 (.pyFloat 30) (.pyInt 0)
    (by decide) rfl

/-- C6: for every decimal degree value in [-89.999, 89.999], encoding with
`_deg_to_dms_rational` and decoding with `_convert_to_degrees` recovers the
magnitude `|d|` within 1e-4 degrees (only the sub-1/10000-second remainder is
truncated). -/
theorem C6_dms_round_trip :
    ∀ d : ℚ, -(89999 / 1000) ≤ d → d ≤ 89999 / 1000 →
      ∃ r : ℚ,
        convertToDegrees (dmsToPyVal (deg_to_dms_rational d)) = .value r ∧
        |r - abs d| ≤ 1 / 10000 := by
  intro d h1 h2
  set a := |d| with ha
  set deg : ℤ := ⌊a⌋ with hdeg
  set minFloat := (a - deg) * 60 with hminFloat
  set minVal : ℤ := ⌊minFloat⌋ with hminVal
  set secFloat := (minFloat - minVal) * 60 with hsecFloat
  set secN : ℤ := ⌊secFloat * 10000⌋ with hsecN
  have heval : deg_to_dms_rational d = ((deg, 1), (minVal, 1), (secN, 10000)) := rfl
  refine ⟨(deg : ℚ) / 1 + ((minVal : ℚ) / 1) / 60 + ((secN : ℚ) / 10000) / 3600, ?_, ?_⟩
  · rw [heval]
    exact convert_pairs_eval deg 1 minVal 1 secN 10000
      (by norm_num) (by norm_num) (by norm_num)
  · have hid : a = (deg : ℚ) + (minVal : ℚ) / 60 + secFloat / 3600 := by
      rw [hsecFloat, hminFloat]; ring
    have hfr1 : (secN : ℚ) ≤ secFloat * 10000 := Int.floor_le _
    have hfr2 : secFloat * 10000 < (secN : ℚ) + 1 := Int.lt_floor_add_one _
    have heq : (deg : ℚ) / 1 + ((minVal : ℚ) / 1) / 60 + ((secN : ℚ) / 10000) / 3600 - a
        = ((secN : ℚ) - secFloat * 10000) / 36000000 := by
      rw [hid]; ring
    rw [abs_le]
    constructor
    · linarith
    · linarith

/-- Witness for C6 at d = 12.3456. -/
theorem C6_dms_round_trip_witness :
    ∃ r : ℚ,
      convertToDegrees (dmsToPyVal (deg_to_dms_rational (123456 / 10000))) = .value r ∧
      |r - abs (123456 / 10000 : ℚ)| ≤ 1 / 10000 :=
  C6_dms_round_trip (123456 / 10000) (by norm_num) (by norm_num)

lemma filter_orderedInsert (t : ℚ) (p : TrackPoint) (l : List TrackPoint) :
    (l.orderedInsert timeLE p).filter (fun q => decide (q.time = t)) =
      ((p :: l).filter (fun q => decide (q.time = t))) := by
  induction l with
  | nil => rfl
  | cons b l ih =>
    by_cases hab : timeLE p b
    · simp only [List.orderedInsert, if_pos hab]
    · have hins : (b :: l).orderedInsert timeLE p = b :: l.orderedInsert timeLE p := by
        simp only [List.orderedInsert, if_neg hab]
      rw [hins]
      by_cases hpp : p.time = t
      · by_cases hpb : b.time = t
        · exact absurd ((hpp.trans hpb.symm).le) hab
        · simp [List.filter_cons, hpp, hpb, ih]
      · by_cases hpb : b.time = t <;> simp [List.filter_cons, hpp, hpb, ih]

lemma filter_insertionSort (t : ℚ) :
    ∀ l : List TrackPoint,
      (List.insertionSort timeLE l).filter (fun q => decide (q.time = t)) =
        l.filter (fun q => decide (q.time = t)) := by
  intro l
  induction l with
  | nil => rfl
  | cons b l ih =>
    rw [List.insertionSort, filter_orderedInsert, List.filter_cons, List.filter_cons, ih]

/-- C9: loading skips unparsable rows while later rows still contribute, and
the loaded point sequence is always sorted ascending by time via a stable
sort — it is a permutation of the parsed points (equal-timestamp duplicates
are all retained) and, for every timestamp, the points carrying it appear in
their relative input order. -/
theorem C9_load_sorted_stable :
    ∀ (tsIdx latIdx lonIdx : ℕ) (altIdx : Option ℕ) (rows : List (List Cell)),
      List.Sorted timeLE (load_gps_csv tsIdx latIdx lonIdx altIdx rows) ∧
      List.Perm (load_gps_csv tsIdx latIdx lonIdx altIdx rows)
        (rows.filterMap (parseRow tsIdx latIdx lonIdx altIdx)) ∧
      (∀ t : ℚ,
        (load_gps_csv tsIdx latIdx lonIdx altIdx rows).filter
            (fun p => decide (p.time = t)) =
          (rows.filterMap (parseRow tsIdx latIdx lonIdx altIdx)).filter
            (fun p => decide (p.time = t))) ∧
      (∀ (pre post : List (List Cell)) (bad : List Cell),
        parseRow tsIdx latIdx lonIdx altIdx bad = none →
        load_gps_csv tsIdx latIdx lonIdx altIdx (pre ++ bad :: post) =
          load_gps_csv tsIdx latIdx lonIdx altIdx (pre ++ post)) := by
  intro tsIdx latIdx lonIdx altIdx rows
  refine ⟨List.sorted_insertionSort timeLE _, List.perm_insertionSort timeLE _, ?_, ?_⟩
  · intro t
    exact filter_insertionSort t _
  · intro pre post bad hbad
    simp [load_gps_csv, List.filterMap_append, List.filterMap_cons, hbad]

/-- Witness for C9: a junk row between two good rows is skipped and the rest
of the log parses as if it were absent. -/
theorem C9_load_sorted_stable_witness :
    load_gps_csv 0 1 2 none
        [[.num 2 true, .num 1 true, .num 1 true], [.junk],
          [.num 1 true, .num 5 true, .num 6 true]] =
      load_gps_csv 0 1 2 none
        [[.num 2 true, .num 1 true, .num 1 true],
          [.num 1 true, .num 5 true, .num 6 true]] :=
  (C9_load_sorted_stable 0 1 2 none []).2.2.2
    [[.num 2 true, .num 1 true, .num 1 true]]
    [[.num 1 true, .num 5 true, .num 6 true]] [.junk] rfl

/-- C8: the batch produces exactly one `ProcessingResult` per input file, each
record depends only on that file's own inputs, a failing file in the middle
of the batch leaves every other file's record unchanged, any worker exception
is converted into a failure record for that file, and the summary is computed
over exactly the batch's records. -/
theorem C8_batch_fault_isolation :
    ∀ (cfg : ScanConfig) (envs : List FileEnv),
      (scan_images cfg envs).length = envs.length ∧
      (∀ i : ℕ, (scan_images cfg envs)[i]? = (envs[i]?).map (handleWorker cfg)) ∧
      (∀ (pre post : List FileEnv) (env : FileEnv),
        scan_images cfg (pre ++ env :: post) =
          scan_images cfg pre ++ handleWorker cfg env :: scan_images cfg post) ∧
      (∀ (env : FileEnv) (e : PyErr), process_single_image cfg env = .error e →
        handleWorker cfg env = ⟨env.filename, [.processFailed], false, false, false⟩) ∧
      (summarize envs.length (scan_images cfg envs)).total = envs.length ∧
      (summarize envs.length (scan_images cfg envs)).countGps ≤ envs.length := by
  intro cfg envs
  refine ⟨List.length_map _ _, ?_, ?_, ?_, rfl, ?_⟩
  · intro i
    simp [scan_images, List.getElem?_map]
  · intro pre post env
    simp [scan_images]
  · intro env e h
    simp [handleWorker, h]
  · simpa [summarize, scan_images] using
      le_trans (List.countP_le_length _) (le_of_eq (List.length_map _ _))

/-- Witness for C8: a worker that raises (an uncaught `ValueError` from the
coordinate-display path) is converted into a failure record for its file. -/
theorem C8_batch_fault_isolation_witness :
    handleWorker ⟨none, false, 300, true, false⟩
        ⟨"bad.jpg",
          some (.piexifDict ⟨[], [],
            [(1, .pyStr "N" none),
             (2, .pyTuple [.pyTuple [.pyStr "x" none, .pyInt 1],
                           .pyTuple [.pyInt 1, .pyInt 1],
                           .pyTuple [.pyInt 1, .pyInt 1]]),
             (3, .pyStr "E" none),
             (4, .pyTuple [.pyTuple [.pyInt 1, .pyInt 1],
                           .pyTuple [.pyInt 1, .pyInt 1],
                           .pyTuple [.pyInt 1, .pyInt 1]])],
            [], [], none⟩),
          none, false, none, false⟩ =
      ⟨"bad.jpg", [.processFailed], false, false, false⟩ :=
  (C8_batch_fault_isolation ⟨none, false, 300, true, false⟩ []).2.2.2.1
    ⟨"bad.jpg",
      some (.piexifDict ⟨[], [],
        [(1, .pyStr "N" none),
         (2, .pyTuple [.pyTuple [.pyStr "x" none, .pyInt 1],
                       .pyTuple [.pyInt 1, .pyInt 1],
                       .pyTuple [.pyInt 1, .pyInt 1]]),
         (3, .pyStr "E" none),
         (4, .pyTuple [.pyTuple [.pyInt 1, .pyInt 1],
                       .pyTuple [.pyInt 1, .pyInt 1],
                       .pyTuple [.pyInt 1, .pyInt 1]])],
        [], [], none⟩),
      none, false, none, false⟩ .valueErrorBadStr rfl

end GpsTool
